import Mathlib

/-!
Verification of the telemetry-forwarding core of `ai-solutions-lab`.

The development shallowly embeds the TypeScript sources:
* `calculateTokenUsage` and `estimateApiCost` (pure estimators),
* `trackMetrics` (persist, publish, refresh-signal pipeline with nested
  try/catch blocks), modelled as a trace-producing function over an
  environment describing the behaviour of each external call,
* `createAIMetrics` (the row of values bound into the SQL INSERT).

JavaScript numbers are modelled as exact rationals; `Math.ceil` and
`Math.round` are embedded with their JavaScript semantics on rationals.
-/

namespace MLOps

/-- The `MetricsData` interface: the unit of telemetry for one AI
interaction. Optional fields become `Option`; `number` becomes `ℚ`. -/
structure MetricsData where
  business_id : String
  conversation_id : Option String
  session_id : String
  response_time_ms : ℚ
  success_rate : ℚ
  user_satisfaction : Option ℚ
  tokens_used : ℚ
  prompt_tokens : Option ℚ
  completion_tokens : Option ℚ
  api_cost_usd : ℚ
  model_name : String
  intent_detected : String
  appointment_requested : Bool
  human_handoff_requested : Bool
  appointment_booked : Option Bool
  user_message_length : ℚ
  ai_response_length : ℚ
  response_type : String
deriving Repr, DecidableEq

/-- Result record of `calculateTokenUsage`. String lengths are naturals,
so each `Math.ceil(length / 4)` is a natural number. -/
structure TokenUsage where
  totalTokens : ℕ
  systemTokens : ℕ
  userTokens : ℕ
  responseTokens : ℕ
deriving Repr, DecidableEq

/-- `Math.ceil(n / k)` for a natural `n` and positive natural `k`. -/
def jsCeilDivNat (n k : ℕ) : ℕ := (n + k - 1) / k

/-- `calculateTokenUsage` from the source: one token per 4 characters,
rounded up per segment, total is the sum of the three segment counts. -/
def calculateTokenUsage (systemPrompt userMessage aiResponse : String) :
    TokenUsage :=
  let CHARS_PER_TOKEN := 4
  let systemTokens := jsCeilDivNat systemPrompt.length CHARS_PER_TOKEN
  let userTokens := jsCeilDivNat userMessage.length CHARS_PER_TOKEN
  let responseTokens := jsCeilDivNat aiResponse.length CHARS_PER_TOKEN
  let totalTokens := systemTokens + userTokens + responseTokens
  { totalTokens := totalTokens
    systemTokens := systemTokens
    userTokens := userTokens
    responseTokens := responseTokens }

/-- `Math.round` on a rational: JavaScript rounds half toward positive
infinity, i.e. `Math.round x = ⌊x + 1/2⌋`. -/
def jsRound (q : ℚ) : ℤ := ⌊q + 1 / 2⌋

/-- `estimateApiCost` from the source: cost at 0.1875 USD per million
tokens, rounded to 6 decimal places via
`Math.round(costUsd * 1_000_000) / 1_000_000`. -/
def estimateApiCost (totalTokens : ℚ) : ℚ :=
  let COST_PER_MILLION_TOKENS : ℚ := 0.1875
  let costUsd := totalTokens / 1000000 * COST_PER_MILLION_TOKENS
  (jsRound (costUsd * 1000000) : ℚ) / 1000000

/-- Rounding a rational to 6 decimal places, the spec-side notion used to
state claim C4. -/
def roundTo6 (q : ℚ) : ℚ := (jsRound (q * 1000000) : ℚ) / 1000000

/-- `Math.ceil` of `n / 4` on naturals agrees with the mathematical
ceiling of the rational `n / 4`. -/
lemma jsCeilDivNat_four_eq_ceil (n : ℕ) :
    (jsCeilDivNat n 4 : ℤ) = ⌈(n : ℚ) / 4⌉ := by
  have h4 : (0 : ℚ) < 4 := by norm_num
  have hub : 4 * jsCeilDivNat n 4 < n + 4 := by
    simp only [jsCeilDivNat]; omega
  have hlb : n ≤ 4 * jsCeilDivNat n 4 := by
    simp only [jsCeilDivNat]; omega
  have hubq : 4 * (jsCeilDivNat n 4 : ℚ) < (n : ℚ) + 4 := by exact_mod_cast hub
  have hlbq : (n : ℚ) ≤ 4 * (jsCeilDivNat n 4 : ℚ) := by exact_mod_cast hlb
  symm
  rw [Int.ceil_eq_iff]
  constructor
  · rw [lt_div_iff₀ h4]
    push_cast
    linarith
  · rw [div_le_iff₀ h4]
    push_cast
    linarith

/-- C3: `calculateTokenUsage` returns the per-segment ceilings of
length/4 and their sum as the total. -/
theorem calculateTokenUsage_spec (a b c : String) :
    ((calculateTokenUsage a b c).systemTokens : ℤ) = ⌈(a.length : ℚ) / 4⌉ ∧
    ((calculateTokenUsage a b c).userTokens : ℤ) = ⌈(b.length : ℚ) / 4⌉ ∧
    ((calculateTokenUsage a b c).responseTokens : ℤ) = ⌈(c.length : ℚ) / 4⌉ ∧
    (calculateTokenUsage a b c).totalTokens =
      (calculateTokenUsage a b c).systemTokens +
      (calculateTokenUsage a b c).userTokens +
      (calculateTokenUsage a b c).responseTokens ∧
    (calculateTokenUsage "" b c).systemTokens = 0 := by
  refine ⟨?_, ?_, ?_, rfl, rfl⟩ <;>
    simp [calculateTokenUsage, jsCeilDivNat_four_eq_ceil]

/-- C4: `estimateApiCost t` equals `t / 1_000_000 * 0.1875` rounded to 6
decimal places; in particular it maps 1,000,000 to 0.1875 and 0 to 0. -/
theorem estimateApiCost_spec :
    (∀ t : ℕ, estimateApiCost t = roundTo6 ((t : ℚ) / 1000000 * 0.1875)) ∧
    estimateApiCost 1000000 = 0.1875 ∧ estimateApiCost 0 = 0 := by
  refine ⟨fun t => rfl, ?_, ?_⟩ <;> norm_num [estimateApiCost, jsRound]

/-- C8: both estimators are deterministic: two calls on identical inputs
yield identical outputs. -/
theorem estimators_deterministic (a b c : String) (t : ℚ) :
    calculateTokenUsage a b c = calculateTokenUsage a b c ∧
    estimateApiCost t = estimateApiCost t :=
  ⟨rfl, rfl⟩

/-- Input of `createAIMetrics`: `Omit<AIMetrics, "id" | "created_at">`. -/
structure AIMetricsInput where
  business_id : String
  conversation_id : Option String
  session_id : String
  response_time_ms : ℚ
  success_rate : ℚ
  tokens_used : ℚ
  prompt_tokens : Option ℚ
  completion_tokens : Option ℚ
  api_cost_usd : ℚ
  model_name : String
  intent_detected : String
  appointment_requested : Bool
  human_handoff_requested : Bool
  appointment_booked : Option Bool
  user_message_length : ℚ
  ai_response_length : ℚ
  response_type : String
deriving Repr, DecidableEq

/-- The row of values bound into the `INSERT INTO ai_metrics` statement:
same columns as the input, except `appointment_booked` is bound as
`metrics.appointment_booked || false` and so is never absent. -/
structure AIMetricsRow where
  business_id : String
  conversation_id : Option String
  session_id : String
  response_time_ms : ℚ
  success_rate : ℚ
  tokens_used : ℚ
  prompt_tokens : Option ℚ
  completion_tokens : Option ℚ
  api_cost_usd : ℚ
  model_name : String
  intent_detected : String
  appointment_requested : Bool
  human_handoff_requested : Bool
  appointment_booked : Bool
  user_message_length : ℚ
  ai_response_length : ℚ
  response_type : String
deriving Repr, DecidableEq

/-- `createAIMetrics` from `lib/database.ts`, modelled as the row of
values it binds into the INSERT. `metrics.appointment_booked || false`
maps an absent value to `false` and keeps `true` and `false` as is. -/
def createAIMetrics (metrics : AIMetricsInput) : AIMetricsRow :=
  { business_id := metrics.business_id
    conversation_id := metrics.conversation_id
    session_id := metrics.session_id
    response_time_ms := metrics.response_time_ms
    success_rate := metrics.success_rate
    tokens_used := metrics.tokens_used
    prompt_tokens := metrics.prompt_tokens
    completion_tokens := metrics.completion_tokens
    api_cost_usd := metrics.api_cost_usd
    model_name := metrics.model_name
    intent_detected := metrics.intent_detected
    appointment_requested := metrics.appointment_requested
    human_handoff_requested := metrics.human_handoff_requested
    appointment_booked := metrics.appointment_booked.getD false
    user_message_length := metrics.user_message_length
    ai_response_length := metrics.ai_response_length
    response_type := metrics.response_type }

/-- The argument object `trackMetrics` builds for `createAIMetrics`: a
field-for-field copy of the `MetricsData` record (dropping
`user_satisfaction`, which `AIMetrics` does not have). -/
def toMetricsInput (m : MetricsData) : AIMetricsInput :=
  { business_id := m.business_id
    conversation_id := m.conversation_id
    session_id := m.session_id
    response_time_ms := m.response_time_ms
    success_rate := m.success_rate
    tokens_used := m.tokens_used
    prompt_tokens := m.prompt_tokens
    completion_tokens := m.completion_tokens
    api_cost_usd := m.api_cost_usd
    model_name := m.model_name
    intent_detected := m.intent_detected
    appointment_requested := m.appointment_requested
    human_handoff_requested := m.human_handoff_requested
    appointment_booked := m.appointment_booked
    user_message_length := m.user_message_length
    ai_response_length := m.ai_response_length
    response_type := m.response_type }

/-- Behaviour of one `await`-ed step that either completes or throws
(a rejected promise: network error, constraint violation, timeout). -/
inductive StepOutcome where
  | ok
  | thrown
deriving Repr, DecidableEq

/-- Behaviour of one `fetch` call: either a response with some HTTP
status code arrives, or the call throws (network error, or the
`AbortSignal.timeout` firing). -/
inductive FetchOutcome where
  | response (status : ℕ)
  | thrown
deriving Repr, DecidableEq

/-- One environment per invocation: the behaviour of the persistence
call, the publish `fetch`, the `response.json()` parse, and the refresh
`fetch`. -/
structure Env where
  persist : StepOutcome
  publish : FetchOutcome
  parseJson : StepOutcome
  refresh : FetchOutcome
deriving Repr, DecidableEq

/-- Body of an outbound HTTP request. -/
inductive Payload where
  | metrics (m : MetricsData)
  | trigger
deriving Repr, DecidableEq

/-- An outbound HTTP request as `trackMetrics` assembles it. -/
structure HttpRequest where
  method : String
  url : String
  contentType : String
  body : Payload
  timeout_ms : Option ℕ
deriving Repr, DecidableEq

/-- Observable actions of one `trackMetrics` invocation, in order. -/
inductive Event where
  | persistAttempt (input : AIMetricsInput)
  | publishAttempt (req : HttpRequest)
  | refreshAttempt (req : HttpRequest)
  | logSuccess
  | logRefreshSkipped
  | logError
deriving Repr, DecidableEq

/-- Errors that can be thrown inside the body of `trackMetrics`. -/
inductive TrackError where
  | persistError
  | fetchError
  | badStatus (status : ℕ)
  | jsonError
deriving Repr, DecidableEq

/-- Outcome of one invocation: the events it performed, the error that
escaped to the caller (`none` when it returned normally), and the final
value of the `metricsData` binding. -/
structure TrackResult where
  events : List Event
  escaped : Option TrackError
  record : MetricsData
deriving Repr, DecidableEq

/-- `response.ok`: status in the range 200-299. -/
def is2xx (status : ℕ) : Bool := 200 ≤ status && status < 300

/-- The publish request: `POST {base}/track` with a JSON content type,
the serialized record as body, and `AbortSignal.timeout(5000)`. -/
def trackRequest (base : String) (m : MetricsData) : HttpRequest :=
  { method := "POST"
    url := base ++ "/track"
    contentType := "application/json"
    body := Payload.metrics m
    timeout_ms := some 5000 }

/-- The refresh request: `POST {base}/refresh-metrics` with the trigger
body and `AbortSignal.timeout(3000)`. -/
def refreshRequest (base : String) : HttpRequest :=
  { method := "POST"
    url := base ++ "/refresh-metrics"
    contentType := "application/json"
    body := Payload.trigger
    timeout_ms := some 3000 }

/-- Body of the outer `try` of `trackMetrics` (the variant with the
persistence step): persist, then fetch `/track`, throw on a non-2xx
status, parse the JSON response, log success, then the inner
`try`/`catch` around the refresh fetch. `mlopsUrlVar` is the value of the
`MLOPS_SERVICE_URL` environment variable. -/
def trackMetricsBody (env : Env) (mlopsUrlVar : Option String)
    (m : MetricsData) : TrackResult :=
  let events0 := [Event.persistAttempt (toMetricsInput m)]
  match env.persist with
  | StepOutcome.thrown => ⟨events0, some TrackError.persistError, m⟩
  | StepOutcome.ok =>
    let mlopsServiceUrl := mlopsUrlVar.getD "http://localhost:5001"
    let events1 := events0 ++ [Event.publishAttempt (trackRequest mlopsServiceUrl m)]
    match env.publish with
    | FetchOutcome.thrown => ⟨events1, some TrackError.fetchError, m⟩
    | FetchOutcome.response status =>
      if is2xx status then
        match env.parseJson with
        | StepOutcome.thrown => ⟨events1, some TrackError.jsonError, m⟩
        | StepOutcome.ok =>
          let events2 := events1 ++ [Event.logSuccess,
            Event.refreshAttempt (refreshRequest mlopsServiceUrl)]
          match env.refresh with
          | FetchOutcome.thrown => ⟨events2 ++ [Event.logRefreshSkipped], none, m⟩
          | FetchOutcome.response _ => ⟨events2, none, m⟩
      else ⟨events1, some (TrackError.badStatus status), m⟩

/-- `trackMetrics` (the variant with the persistence step): the body
wrapped in the outer `catch`, which logs any error and swallows it. -/
def trackMetrics (env : Env) (mlopsUrlVar : Option String)
    (m : MetricsData) : TrackResult :=
  let r := trackMetricsBody env mlopsUrlVar m
  match r.escaped with
  | some _ => ⟨r.events ++ [Event.logError], none, r.record⟩
  | none => r

/-- Environment for the simpler `trackMetrics` variant, which has no
persistence step and no refresh step. -/
structure SimpleEnv where
  publish : FetchOutcome
  parseJson : StepOutcome
deriving Repr, DecidableEq

/-- The publish request of the simpler variant: identical but with no
`AbortSignal` timeout attached. -/
def trackRequestSimple (base : String) (m : MetricsData) : HttpRequest :=
  { method := "POST"
    url := base ++ "/track"
    contentType := "application/json"
    body := Payload.metrics m
    timeout_ms := none }

/-- The simpler `trackMetrics` variant: fetch `/track`, throw on a
non-2xx status, parse the JSON, log; one `catch` swallowing everything. -/
def trackMetricsSimple (env : SimpleEnv) (mlopsUrlVar : Option String)
    (m : MetricsData) : TrackResult :=
  let mlopsServiceUrl := mlopsUrlVar.getD "http://localhost:5001"
  let events1 := [Event.publishAttempt (trackRequestSimple mlopsServiceUrl m)]
  let body : TrackResult :=
    match env.publish with
    | FetchOutcome.thrown => ⟨events1, some TrackError.fetchError, m⟩
    | FetchOutcome.response status =>
      if is2xx status then
        match env.parseJson with
        | StepOutcome.thrown => ⟨events1, some TrackError.jsonError, m⟩
        | StepOutcome.ok => ⟨events1 ++ [Event.logSuccess], none, m⟩
      else ⟨events1, some (TrackError.badStatus status), m⟩
  match body.escaped with
  | some _ => ⟨body.events ++ [Event.logError], none, body.record⟩
  | none => body

/-- Is this event the persistence attempt? -/
def isPersist : Event → Bool
  | Event.persistAttempt _ => true
  | _ => false

/-- Is this event the publish attempt? -/
def isPublish : Event → Bool
  | Event.publishAttempt _ => true
  | _ => false

/-- Is this event the refresh-signal attempt? -/
def isRefresh : Event → Bool
  | Event.refreshAttempt _ => true
  | _ => false

/-- A concrete metrics record used to instantiate theorems. -/
def sampleMetrics : MetricsData :=
  { business_id := "b-1"
    conversation_id := none
    session_id := "s-1"
    response_time_ms := 120
    success_rate := 1
    user_satisfaction := none
    tokens_used := 42
    prompt_tokens := none
    completion_tokens := none
    api_cost_usd := 0
    model_name := "gemini-1.5-flash"
    intent_detected := "booking"
    appointment_requested := true
    human_handoff_requested := false
    appointment_booked := none
    user_message_length := 10
    ai_response_length := 20
    response_type := "text" }

/-- An environment in which the persistence call throws and every later
call would succeed. -/
def envPersistFails : Env :=
  { persist := StepOutcome.thrown
    publish := FetchOutcome.response 200
    parseJson := StepOutcome.ok
    refresh := FetchOutcome.response 200 }

/-- An environment in which every call succeeds with a 2xx status. -/
def envAllOk : Env :=
  { persist := StepOutcome.ok
    publish := FetchOutcome.response 200
    parseJson := StepOutcome.ok
    refresh := FetchOutcome.response 200 }

/-- C1: whatever the behaviour of the persistence call, the publish
fetch, the JSON parse, and the refresh fetch, neither `trackMetrics`
variant lets an error escape to its caller. -/
theorem trackMetrics_never_throws (env : Env) (senv : SimpleEnv)
    (url : Option String) (m : MetricsData) :
    (trackMetrics env url m).escaped = none ∧
    (trackMetricsSimple senv url m).escaped = none := by
  constructor
  · rw [trackMetrics]
    cases h : (trackMetricsBody env url m).escaped <;> simp [h]
  · rcases senv with ⟨pub, js⟩
    cases pub <;> cases js <;> simp [trackMetricsSimple] <;>
      split <;> simp_all

/-- The body of `trackMetrics` never changes the `metricsData` binding:
the record flows through every branch untouched. -/
lemma trackMetricsBody_record (env : Env) (url : Option String)
    (m : MetricsData) : (trackMetricsBody env url m).record = m := by
  rcases env with ⟨p, pub, js, rf⟩
  cases p <;> cases pub <;> cases js <;> cases rf <;>
    simp [trackMetricsBody] <;> split <;> simp

/-- C9: `trackMetrics` never mutates the record passed to it: whatever
the outcome of the I/O steps, the record after the call is
field-for-field the record passed in. -/
theorem trackMetrics_preserves_record (env : Env) (url : Option String)
    (m : MetricsData) : (trackMetrics env url m).record = m := by
  rw [trackMetrics]
  cases h : (trackMetricsBody env url m).escaped <;>
    simp [h, trackMetricsBody_record]

/-- C2 counterexample: in the environment where only the persistence
call fails, `trackMetrics` performs no publish attempt at all — the
persistence error jumps to the outer catch, skipping the fetch. -/
theorem trackMetrics_persist_failure_no_publish_cex :
    envPersistFails.persist = StepOutcome.thrown ∧
    (trackMetrics envPersistFails none sampleMetrics).events.any isPublish
      = false :=
  ⟨rfl, rfl⟩

/-- C2 amended: when the persistence step fails, the error propagates to
the outer catch handler, so the publish and refresh steps are not
attempted; `trackMetrics` logs the error and still completes without
raising. -/
theorem trackMetrics_persist_failure_aborts (env : Env)
    (url : Option String) (m : MetricsData)
    (h : env.persist = StepOutcome.thrown) :
    (trackMetrics env url m).events =
      [Event.persistAttempt (toMetricsInput m), Event.logError] ∧
    (trackMetrics env url m).escaped = none := by
  simp [trackMetrics, trackMetricsBody, h]

/-- Did the publish fetch succeed (a response arrived with a 2xx
status)? -/
def publishSucceeded (env : Env) : Bool :=
  match env.publish with
  | FetchOutcome.response status => is2xx status
  | FetchOutcome.thrown => false

/-- `p`-events strictly precede `q`-events everywhere in the trace. -/
def precedes (p q : Event → Bool) (l : List Event) : Prop :=
  ∀ i j : ℕ, ∀ hi : i < l.length, ∀ hj : j < l.length,
    p (l.get ⟨i, hi⟩) = true → q (l.get ⟨j, hj⟩) = true → i < j

/-- Every trace of `trackMetrics` has one of four shapes: the persist
attempt then the error log; persist and publish attempts then the error
log; or — only when the publish fetch returned a 2xx status — the full
trace with the refresh attempt, with or without the refresh-skipped
log. -/
lemma trackMetrics_trace_cases (env : Env) (url : Option String)
    (m : MetricsData) :
    (trackMetrics env url m).events =
      [Event.persistAttempt (toMetricsInput m), Event.logError] ∨
    (trackMetrics env url m).events =
      [Event.persistAttempt (toMetricsInput m),
       Event.publishAttempt (trackRequest (url.getD "http://localhost:5001") m),
       Event.logError] ∨
    (publishSucceeded env = true ∧
      ((trackMetrics env url m).events =
        [Event.persistAttempt (toMetricsInput m),
         Event.publishAttempt (trackRequest (url.getD "http://localhost:5001") m),
         Event.logSuccess,
         Event.refreshAttempt (refreshRequest (url.getD "http://localhost:5001"))] ∨
       (trackMetrics env url m).events =
        [Event.persistAttempt (toMetricsInput m),
         Event.publishAttempt (trackRequest (url.getD "http://localhost:5001") m),
         Event.logSuccess,
         Event.refreshAttempt (refreshRequest (url.getD "http://localhost:5001")),
         Event.logRefreshSkipped])) := by
  rcases env with ⟨p, pub, js, rf⟩
  cases p with
  | thrown => left; simp [trackMetrics, trackMetricsBody]
  | ok =>
    cases pub with
    | thrown => right; left; simp [trackMetrics, trackMetricsBody]
    | response status =>
      by_cases h : is2xx status = true
      · cases js with
        | thrown =>
          right; left; simp [trackMetrics, trackMetricsBody, h]
        | ok =>
          right; right
          refine ⟨by simp [publishSucceeded, h], ?_⟩
          cases rf with
          | response s2 =>
            left; simp [trackMetrics, trackMetricsBody, h]
          | thrown =>
            right; simp [trackMetrics, trackMetricsBody, h]
      · right; left
        simp [trackMetrics, trackMetricsBody, h]

/-- C5: in every trace, the persist attempt precedes the publish
attempt, which precedes the refresh attempt; and the refresh attempt is
only present when the publish fetch succeeded with a 2xx status — never
when the publish failed. -/
theorem trackMetrics_step_ordering (env : Env) (url : Option String)
    (m : MetricsData) :
    precedes isPersist isPublish (trackMetrics env url m).events ∧
    precedes isPublish isRefresh (trackMetrics env url m).events ∧
    ((trackMetrics env url m).events.any isRefresh = true →
      publishSucceeded env = true) := by
  rcases trackMetrics_trace_cases env url m with h | h | ⟨hp, h | h⟩ <;>
    rw [h] <;>
    refine ⟨?_, ?_, ?_⟩ <;>
    first
      | (intro i j hi hj hpi hqj;
         have hi2 := hi; have hj2 := hj;
         simp only [List.length_cons, List.length_nil] at hi2 hj2;
         interval_cases i <;> interval_cases j <;>
           first
             | omega
             | exact Bool.noConfusion hpi
             | exact Bool.noConfusion hqj)
      | exact fun _ => hp
      | (intro hc; simp [isRefresh] at hc)

/-- Witness for C5 at a concrete environment: the all-success trace
contains a refresh attempt, and the theorem yields that the publish
succeeded there. -/
theorem trackMetrics_step_ordering_witness :
    (trackMetrics envAllOk none sampleMetrics).events.any isRefresh
      = true ∧
    publishSucceeded envAllOk = true :=
  ⟨rfl, (trackMetrics_step_ordering envAllOk none sampleMetrics).2.2 rfl⟩

/-- C6: the behaviour of the refresh fetch never affects the persist and
publish events already performed, the record, or the overall completion
of `trackMetrics`. -/
theorem trackMetrics_refresh_isolated (env : Env) (url : Option String)
    (m : MetricsData) (r1 r2 : FetchOutcome) :
    (trackMetrics { env with refresh := r1 } url m).events.filter
        (fun e => isPersist e || isPublish e) =
      (trackMetrics { env with refresh := r2 } url m).events.filter
        (fun e => isPersist e || isPublish e) ∧
    (trackMetrics { env with refresh := r1 } url m).escaped = none ∧
    (trackMetrics { env with refresh := r1 } url m).record =
      (trackMetrics { env with refresh := r2 } url m).record := by
  rcases env with ⟨p, pub, js, _⟩
  cases p with
  | thrown => simp [trackMetrics, trackMetricsBody, isPersist, isPublish]
  | ok =>
    cases pub with
    | thrown => simp [trackMetrics, trackMetricsBody, isPersist, isPublish]
    | response status =>
      by_cases hst : is2xx status = true
      · cases js with
        | thrown =>
          simp [trackMetrics, trackMetricsBody, isPersist, isPublish, hst]
        | ok =>
          cases r1 <;> cases r2 <;>
            simp [trackMetrics, trackMetricsBody, isPersist, isPublish, hst]
      · simp [trackMetrics, trackMetricsBody, isPersist, isPublish, hst]

/-- Witness for the amended C2 at a concrete environment and record. -/
theorem trackMetrics_persist_failure_aborts_witness :
    envPersistFails.persist = StepOutcome.thrown ∧
    ((trackMetrics envPersistFails none sampleMetrics).events =
      [Event.persistAttempt (toMetricsInput sampleMetrics),
        Event.logError] ∧
     (trackMetrics envPersistFails none sampleMetrics).escaped = none) :=
  ⟨rfl, trackMetrics_persist_failure_aborts envPersistFails none
    sampleMetrics rfl⟩

/-- An environment in which the publish fetch returns a non-2xx status
and everything else would succeed. -/
def envBadStatus : Env :=
  { persist := StepOutcome.ok
    publish := FetchOutcome.response 500
    parseJson := StepOutcome.ok
    refresh := FetchOutcome.response 200 }

/-- C7: every publish attempt posts to `base + "/track"` with the JSON
content type, the serialized record, and a 5000 ms timeout, where `base`
is `MLOPS_SERVICE_URL` or `http://localhost:5001` when unset; every
refresh attempt posts to `base + "/refresh-metrics"` with a 3000 ms
timeout; and a non-2xx publish response is a failure of the publish
step: the error is logged and the refresh is not attempted. -/
theorem trackMetrics_request_contract (env : Env) (url : Option String)
    (m : MetricsData) :
    (∀ req, Event.publishAttempt req ∈ (trackMetrics env url m).events →
      req.method = "POST" ∧
      req.url = url.getD "http://localhost:5001" ++ "/track" ∧
      req.contentType = "application/json" ∧
      req.body = Payload.metrics m ∧
      req.timeout_ms = some 5000) ∧
    (∀ req, Event.refreshAttempt req ∈ (trackMetrics env url m).events →
      req.method = "POST" ∧
      req.url = url.getD "http://localhost:5001" ++ "/refresh-metrics" ∧
      req.body = Payload.trigger ∧
      req.timeout_ms = some 3000) ∧
    (∀ s, env.publish = FetchOutcome.response s → is2xx s = false →
      Event.logError ∈ (trackMetrics env url m).events ∧
      (trackMetrics env url m).events.any isRefresh = false) := by
  refine ⟨?_, ?_, ?_⟩
  · intro req hmem
    rcases trackMetrics_trace_cases env url m with h | h | ⟨_, h | h⟩ <;>
      rw [h] at hmem <;> simp at hmem <;>
      simp [hmem, trackRequest]
  · intro req hmem
    rcases trackMetrics_trace_cases env url m with h | h | ⟨_, h | h⟩ <;>
      rw [h] at hmem <;> simp at hmem <;>
      simp [hmem, refreshRequest]
  · intro s hs hbad
    rcases env with ⟨p, pub, js, rf⟩
    cases hs
    cases p <;>
      simp [trackMetrics, trackMetricsBody, hbad, isRefresh]

/-- Witness for C7: at the all-success environment the publish request
has the contractual fields, and at a 500-status environment the error is
logged and no refresh is attempted. -/
theorem trackMetrics_request_contract_witness :
    Event.publishAttempt (trackRequest "http://localhost:5001" sampleMetrics)
      ∈ (trackMetrics envAllOk none sampleMetrics).events ∧
    ((trackRequest "http://localhost:5001" sampleMetrics).method = "POST" ∧
     (trackRequest "http://localhost:5001" sampleMetrics).url =
       (none : Option String).getD "http://localhost:5001" ++ "/track" ∧
     (trackRequest "http://localhost:5001" sampleMetrics).contentType =
       "application/json" ∧
     (trackRequest "http://localhost:5001" sampleMetrics).body =
       Payload.metrics sampleMetrics ∧
     (trackRequest "http://localhost:5001" sampleMetrics).timeout_ms =
       some 5000) ∧
    envBadStatus.publish = FetchOutcome.response 500 ∧
    is2xx 500 = false ∧
    (Event.logError ∈ (trackMetrics envBadStatus none sampleMetrics).events ∧
     (trackMetrics envBadStatus none sampleMetrics).events.any isRefresh
       = false) :=
  have hmem : Event.publishAttempt
      (trackRequest "http://localhost:5001" sampleMetrics)
      ∈ (trackMetrics envAllOk none sampleMetrics).events := by
    show Event.publishAttempt _ ∈
      [Event.persistAttempt (toMetricsInput sampleMetrics),
       Event.publishAttempt (trackRequest "http://localhost:5001" sampleMetrics),
       Event.logSuccess,
       Event.refreshAttempt (refreshRequest "http://localhost:5001")]
    simp
  ⟨hmem,
   (trackMetrics_request_contract envAllOk none sampleMetrics).1 _ hmem,
   rfl, rfl,
   (trackMetrics_request_contract envBadStatus none sampleMetrics).2.2
     500 rfl rfl⟩

/-- C10: `createAIMetrics` binds `false` for an absent
`appointment_booked`, keeps an explicit `true` or `false` as given, and
passes every other field through unchanged. -/
theorem createAIMetrics_appointment_booked (m : AIMetricsInput) :
    (m.appointment_booked = none →
      (createAIMetrics m).appointment_booked = false) ∧
    (∀ b, m.appointment_booked = some b →
      (createAIMetrics m).appointment_booked = b) ∧
    (createAIMetrics m).business_id = m.business_id ∧
    (createAIMetrics m).conversation_id = m.conversation_id ∧
    (createAIMetrics m).session_id = m.session_id ∧
    (createAIMetrics m).response_time_ms = m.response_time_ms ∧
    (createAIMetrics m).success_rate = m.success_rate ∧
    (createAIMetrics m).tokens_used = m.tokens_used ∧
    (createAIMetrics m).prompt_tokens = m.prompt_tokens ∧
    (createAIMetrics m).completion_tokens = m.completion_tokens ∧
    (createAIMetrics m).api_cost_usd = m.api_cost_usd ∧
    (createAIMetrics m).model_name = m.model_name ∧
    (createAIMetrics m).intent_detected = m.intent_detected ∧
    (createAIMetrics m).appointment_requested = m.appointment_requested ∧
    (createAIMetrics m).human_handoff_requested
      = m.human_handoff_requested ∧
    (createAIMetrics m).user_message_length = m.user_message_length ∧
    (createAIMetrics m).ai_response_length = m.ai_response_length ∧
    (createAIMetrics m).response_type = m.response_type := by
  refine ⟨?_, ?_, rfl, rfl, rfl, rfl, rfl, rfl, rfl, rfl, rfl, rfl, rfl,
    rfl, rfl, rfl, rfl, rfl⟩
  · intro h; simp [createAIMetrics, h]
  · intro b h; simp [createAIMetrics, h]

/-- Witness for C10: an input with `appointment_booked` absent is
inserted with `false`, and an input with an explicit `true` keeps it. -/
theorem createAIMetrics_appointment_booked_witness :
    (toMetricsInput sampleMetrics).appointment_booked = none ∧
    (createAIMetrics (toMetricsInput sampleMetrics)).appointment_booked
      = false ∧
    (toMetricsInput
        { sampleMetrics with appointment_booked := some true
        }).appointment_booked = some true ∧
    (createAIMetrics (toMetricsInput
        { sampleMetrics with appointment_booked := some true
        })).appointment_booked = true :=
  ⟨rfl,
   (createAIMetrics_appointment_booked (toMetricsInput sampleMetrics)).1 rfl,
   rfl,
   (createAIMetrics_appointment_booked (toMetricsInput
     { sampleMetrics with appointment_booked := some true })).2.1 true rfl⟩

end MLOps
